import Mathlib

/-!
Verification of `pygwan` (`src/pygwan/__init__.py`), an unofficial Python
wrapper for the WhatsApp Cloud API.

The embedding is shallow: Python `dict`/`list`/`str`/`bool`/`None` JSON
values become the inductive `JValue`; Python dictionary subscription
(`d[k]`, which raises `KeyError` when the key is missing) and list indexing
(`l[i]`, which raises `IndexError`) become `Except`-valued access functions,
so "raises" (`Except.error`) is distinguished from "returns None"
(`Except.ok none`).  Each send method of the `WhatsApp` class becomes a pure
function returning the list of HTTP POST requests (url, headers, json body)
the method would issue, in order; `request_location` returns
`Except`, since it can raise `ValueError` before any request is made.
-/

/-- JSON-ish values as built by the Python source: `None`, booleans,
strings, dictionaries (assoc lists, in insertion order) and lists. -/
inductive JValue where
  | null : JValue
  | bool : Bool → JValue
  | str : String → JValue
  | obj : List (String × JValue) → JValue
  | arr : List JValue → JValue

/-- Python `d[k]` on a dictionary: the value, or `KeyError` when absent;
`TypeError` when the receiver is not a dictionary. -/
def JValue.getKey (v : JValue) (k : String) : Except String JValue :=
  match v with
  | .obj l =>
    match l.lookup k with
    | some x => .ok x
    | none => .error ("KeyError: " ++ k)
  | _ => .error "TypeError: not a dict"

/-- Python `l[i]` on a list: the element, or `IndexError` when out of range;
`TypeError` when the receiver is not a list. -/
def JValue.getIdx (v : JValue) (i : Nat) : Except String JValue :=
  match v with
  | .arr l =>
    match l.get? i with
    | some x => .ok x
    | none => .error "IndexError"
  | _ => .error "TypeError: not a list"

/-- Python `k in d` on a dictionary (`False` on non-dictionaries never
arises in the embedded code paths). -/
def JValue.hasKey (v : JValue) (k : String) : Bool :=
  match v with
  | .obj l => (l.lookup k).isSome
  | _ => false

/-- Python truthiness of the values that appear here: `None` is falsy,
a string/dict/list is truthy iff non-empty. -/
def JValue.truthy (v : JValue) : Bool :=
  match v with
  | .null => false
  | .bool b => b
  | .str s => s != ""
  | .obj l => !l.isEmpty
  | .arr l => !l.isEmpty

/-- Python `d.get(k)` on a dictionary: the value, or `None` when absent. -/
def JValue.get (v : JValue) (k : String) : Option JValue :=
  match v with
  | .obj l => l.lookup k
  | _ => none

/-- An HTTP POST as issued by `requests.post(url, headers=headers, json=data)`. -/
structure Request where
  url : String
  headers : List (String × String)
  body : JValue

/-- The credential/configuration pair held by a `WhatsApp` instance
(`token`, `phone_number_id`), fixed by `__init__`. -/
structure WhatsAppCfg where
  token : String
  phone_number_id : String

namespace WhatsAppCfg

/-- The `self.base_url` set in `__init__`. -/
def base_url : String := "https://graph.facebook.com/v18.0"

/-- The `self.v15_base_url` set in `__init__` (same literal as `base_url`). -/
def v15_base_url : String := "https://graph.facebook.com/v18.0"

/-- The endpoint `self.url = f"{self.base_url}/{phone_number_id}/messages"`. -/
def url (c : WhatsAppCfg) : String :=
  base_url ++ "/" ++ c.phone_number_id ++ "/messages"

/-- The `self.headers` dictionary built in `__init__`. -/
def headers (c : WhatsAppCfg) : List (String × String) :=
  [("Content-Type", "application/json"),
   ("Authorization", "Bearer " ++ c.token)]

end WhatsAppCfg

/-- The `data` dictionary built for one (chunk of a) text message in
`WhatsApp.send_message`. -/
def textPayload (recipient_type recipient_id : String) (preview_url : Bool)
    (body : String) : JValue :=
  .obj [("messaging_product", .str "whatsapp"),
        ("recipient_type", .str recipient_type),
        ("to", .str recipient_id),
        ("type", .str "text"),
        ("text", .obj [("preview_url", .bool preview_url),
                       ("body", .str body)])]

/-- Python `[message[i : i + 4096] for i in range(0, len(message), 4096)]`:
successive slices of at most 4096 characters. -/
def chunks4096 : List Char → List (List Char)
  | [] => []
  | c :: cs => List.take 4096 (c :: cs) :: chunks4096 (List.drop 4096 (c :: cs))
termination_by l => l.length
decreasing_by
  simp only [List.length_drop, List.length_cons]
  omega

/-- Model of `WhatsApp.send_message`: the list of POSTs issued, in order.  Messages
longer than 4096 characters are split into 4096-character slices, one POST
per slice; otherwise a single POST is issued. -/
def send_message (c : WhatsAppCfg) (message recipient_id : String)
    (recipient_type : String) (preview_url : Bool) : List Request :=
  if message.length > 4096 then
    (chunks4096 message.data).map fun msg =>
      ⟨c.url, c.headers, textPayload recipient_type recipient_id preview_url (String.mk msg)⟩
  else
    [⟨c.url, c.headers, textPayload recipient_type recipient_id preview_url message⟩]

/-- The `text.body` field of a text-message payload, when present. -/
def payloadTextBody (p : JValue) : Option String :=
  match p.getKey "text" with
  | .ok t =>
    match t.getKey "body" with
    | .ok (.str b) => some b
    | _ => none
  | _ => none

/-- Lift an `Option` result of `dict.get` back into a stored value:
Python stores `None` as-is. -/
def optJ : Option JValue → JValue
  | none => .null
  | some v => v

/-- Truthiness of a `dict.get` result (`None` when missing). -/
def optTruthy : Option JValue → Bool
  | none => false
  | some v => v.truthy

/-- The `data` dictionary built by `WhatsApp.send_reaction`. -/
def reactionPayload (message_id reaction recipient_id : String) : JValue :=
  .obj [("messaging_product", .str "whatsapp"),
        ("recipient_type", .str "individual"),
        ("to", .str recipient_id),
        ("type", .str "reaction"),
        ("reaction", .obj [("message_id", .str message_id),
                           ("emoji", .str reaction)])]

/-- Default of the `lang` parameter of `WhatsApp.send_template`. -/
def send_template_default_lang : String := "en_US"

/-- Default of the `lang` parameter of `WhatsApp.send_payload_template`. -/
def send_payload_template_default_lang : String := "en"

/-- Default of the `lang` parameter of
`WhatsApp.send_payload_template_with_header`. -/
def send_payload_template_with_header_default_lang : String := "en_GB"

/-- The `data` dictionary built by `WhatsApp.send_template`; `components`
is a caller-supplied list forwarded verbatim. -/
def templatePayload (template recipient_id : String) (components : JValue)
    (lang : String) : JValue :=
  .obj [("messaging_product", .str "whatsapp"),
        ("to", .str recipient_id),
        ("type", .str "template"),
        ("template", .obj [("name", .str template),
                           ("language", .obj [("code", .str lang)]),
                           ("components", components)])]

/-- One parameter `{"type": "text", "text": str(variable)}` as built by the template
convenience paths; variables are modelled as the strings `str` yields. -/
def mkTextParam (v : String) : JValue :=
  .obj [("type", .str "text"), ("text", .str v)]

/-- The `data` dictionary built by `WhatsApp.send_payload_template`. -/
def send_payload_template_payload (template_name recipient_id : String)
    (vars : List String) (lang : String) : JValue :=
  .obj [("messaging_product", .str "whatsapp"),
        ("to", .str recipient_id),
        ("type", .str "template"),
        ("template", .obj [("name", .str template_name),
                           ("language", .obj [("code", .str lang)]),
                           ("components", .arr [.obj [("type", .str "body"),
                             ("parameters", .arr (vars.map mkTextParam))]])])]

/-- The `data` dictionary built by
`WhatsApp.send_payload_template_with_header`. -/
def send_payload_template_with_header_payload (template_name recipient_id : String)
    (header_variables body_variables : List String) (lang : String) : JValue :=
  .obj [("messaging_product", .str "whatsapp"),
        ("to", .str recipient_id),
        ("type", .str "template"),
        ("template", .obj [("name", .str template_name),
                           ("language", .obj [("code", .str lang)]),
                           ("components", .arr
                             [.obj [("type", .str "header"),
                                    ("parameters", .arr (header_variables.map mkTextParam))],
                              .obj [("type", .str "body"),
                                    ("parameters", .arr (body_variables.map mkTextParam))]])])]

/-- The `data` dictionary built by `WhatsApp.send_image`; `link` selects
between a hosted link and a media id, `caption` defaults to `None`. -/
def imagePayload (image recipient_id recipient_type : String)
    (caption : Option String) (link : Bool) : JValue :=
  if link then
    .obj [("messaging_product", .str "whatsapp"),
          ("recipient_type", .str recipient_type),
          ("to", .str recipient_id),
          ("type", .str "image"),
          ("image", .obj [("link", .str image), ("caption", optJ (caption.map .str))])]
  else
    .obj [("messaging_product", .str "whatsapp"),
          ("recipient_type", .str recipient_type),
          ("to", .str recipient_id),
          ("type", .str "image"),
          ("image", .obj [("id", .str image), ("caption", optJ (caption.map .str))])]

/-- The `data` dictionary built by `WhatsApp.send_document`. -/
def documentPayload (document_url recipient_id caption filename : String) : JValue :=
  .obj [("messaging_product", .str "whatsapp"),
        ("recipient_type", .str "individual"),
        ("to", .str recipient_id),
        ("type", .str "document"),
        ("document", .obj [("link", .str document_url),
                           ("caption", .str caption),
                           ("filename", .str filename)])]

/-- Model of `WhatsApp.create_button`: starts from `{"type": "list", "action":
button.get("action")}` and appends `header`/`body`/`footer` entries when
the corresponding `button.get(...)` is truthy. -/
def create_button (button : JValue) : JValue :=
  .obj ([("type", .str "list"), ("action", optJ (button.get "action"))]
    ++ (if optTruthy (button.get "header") then
          [("header", .obj [("type", .str "text"),
                            ("text", optJ (button.get "header"))])]
        else [])
    ++ (if optTruthy (button.get "body") then
          [("body", .obj [("text", optJ (button.get "body"))])]
        else [])
    ++ (if optTruthy (button.get "footer") then
          [("footer", .obj [("text", optJ (button.get "footer"))])]
        else []))

/-- The `data` dictionary built by `WhatsApp.send_button`. -/
def send_button_payload (button : JValue) (recipient_id : String) : JValue :=
  .obj [("messaging_product", .str "whatsapp"),
        ("to", .str recipient_id),
        ("type", .str "interactive"),
        ("interactive", create_button button)]

/-- The `data` dictionary built by `WhatsApp.send_list_message`; the
caller's button dictionaries (each with `"title"` and `"payload"`) are
modelled as (title, payload) string pairs. -/
def send_list_message_payload (recipient_id header body footer : String)
    (buttons : List (String × String)) : JValue :=
  .obj [("messaging_product", .str "whatsapp"),
        ("to", .str recipient_id),
        ("type", .str "interactive"),
        ("interactive", .obj
          [("type", .str "list"),
           ("header", .obj [("type", .str "text"), ("text", .str header)]),
           ("body", .obj [("text", .str body)]),
           ("footer", .obj [("text", .str footer)]),
           ("action", .obj
             [("button", .str "Choose"),
              ("sections", .arr [.obj [("title", .str "Select one"),
                ("rows", .arr (buttons.map fun b =>
                  .obj [("id", .str b.2), ("title", .str b.1)]))]])])])]

/-- Python `body = {"body": {"text": message}} if message else {}` in
`WhatsApp.send_cta_url_button`: present iff `message` is truthy. -/
def ctaBody : Option String → List (String × JValue)
  | some m => if m = "" then [] else [("body", .obj [("text", .str m)])]
  | none => []

/-- The `data` dictionary built by `WhatsApp.send_cta_url_button`; the
optional `body` entry is spliced between `type` and `action` (`**body`). -/
def send_cta_url_button_payload (recipient_id button_text u : String)
    (message : Option String) : JValue :=
  .obj [("messaging_product", .str "whatsapp"),
        ("recipient_type", .str "individual"),
        ("to", .str recipient_id),
        ("type", .str "interactive"),
        ("interactive", .obj (("type", .str "cta_url") :: ctaBody message ++
          [("action", .obj [("name", .str "cta_url"),
                            ("parameters", .obj [("display_text", .str button_text),
                                                 ("url", .str u)])])]))]

/-- The `data` dictionary built by `WhatsApp.request_location`. -/
def locationRequestPayload (recipient_id message : String) : JValue :=
  .obj [("messaging_product", .str "whatsapp"),
        ("recipient_type", .str "individual"),
        ("type", .str "interactive"),
        ("to", .str recipient_id),
        ("interactive", .obj
          [("type", .str "location_request_message"),
           ("body", .obj [("text", .str message)]),
           ("action", .obj [("name", .str "send_location")])])]

/-- Model of `WhatsApp.request_location`: builds the payload, raises `ValueError`
when the message has 1025 or more characters (before any POST), otherwise
issues one POST. -/
def request_location (c : WhatsAppCfg) (recipient_id message : String) :
    Except String (List Request) :=
  let data := locationRequestPayload recipient_id message
  if message.length ≥ 1025 then
    .error "ValueError: Message length should not exceed 1024 characters"
  else
    .ok [⟨c.url, c.headers, data⟩]

/-- The local `headers` dictionary built inside `WhatsApp.mark_as_read`. -/
def mark_as_read_headers (c : WhatsAppCfg) : List (String × String) :=
  [("Authorization", "Bearer " ++ c.token),
   ("Content-Type", "application/json")]

/-- The `json_data` dictionary built by `WhatsApp.mark_as_read`. -/
def mark_as_read_json (message_id : String) : JValue :=
  .obj [("messaging_product", .str "whatsapp"),
        ("status", .str "read"),
        ("message_id", .str message_id)]

/-- The URL `f"{self.v15_base_url}/{self.phone_number_id}/messages"` used
by `WhatsApp.mark_as_read`. -/
def mark_as_read_url (c : WhatsAppCfg) : String :=
  WhatsAppCfg.v15_base_url ++ "/" ++ c.phone_number_id ++ "/messages"

/-- Model of `WhatsApp.mark_as_read`: the single POST it issues. -/
def mark_as_read (c : WhatsAppCfg) (message_id : String) : List Request :=
  [⟨mark_as_read_url c, mark_as_read_headers c, mark_as_read_json message_id⟩]

/-- The serialization invariant of C2: the payload carries
`messaging_product: "whatsapp"`, a recipient (`to`) and a `type` key. -/
def sendInvariant (p : JValue) : Prop :=
  p.get "messaging_product" = some (.str "whatsapp") ∧
  (p.get "to").isSome = true ∧
  (p.get "type").isSome = true

/-- The `template.language.code` field of a template payload, when present. -/
def templateLangCode (p : JValue) : Option JValue :=
  match p.get "template" with
  | some t =>
    match t.get "language" with
    | some l => l.get "code"
    | none => none
  | none => none

/-- The `template.components` field of a template payload, when present. -/
def templateComponents (p : JValue) : Option JValue :=
  match p.get "template" with
  | some t => t.get "components"
  | none => none

/-- The `interactive.body` field of an interactive payload, when present. -/
def interactiveBody (p : JValue) : Option JValue :=
  match p.get "interactive" with
  | some i => i.get "body"
  | none => none

theorem chunks4096_nil : chunks4096 [] = [] := by
  simp [chunks4096]

theorem chunks4096_cons (c : Char) (cs : List Char) :
    chunks4096 (c :: cs) =
      List.take 4096 (c :: cs) :: chunks4096 (List.drop 4096 (c :: cs)) := by
  rw [chunks4096]

theorem chunks4096_length (l : List Char) :
    (chunks4096 l).length = (l.length + 4095) / 4096 := by
  induction l using chunks4096.induct with
  | case1 => simp [chunks4096_nil]
  | case2 c cs ih =>
    rw [chunks4096_cons c cs, List.length_cons, ih, List.length_drop]
    simp only [List.length_cons]
    omega

theorem chunks4096_flatten (l : List Char) :
    (chunks4096 l).flatten = l := by
  induction l using chunks4096.induct with
  | case1 => simp [chunks4096_nil]
  | case2 c cs ih =>
    rw [chunks4096_cons c cs, List.flatten_cons, ih, List.take_append_drop]

theorem chunks4096_bound (l : List Char) (c : List Char)
    (hc : c ∈ chunks4096 l) : c.length ≤ 4096 := by
  induction l using chunks4096.induct with
  | case1 => simp [chunks4096_nil] at hc
  | case2 x xs ih =>
    rw [chunks4096_cons x xs] at hc
    rcases List.mem_cons.mp hc with rfl | hmem
    · simp
    · exact ih hmem

theorem foldl_append_mk (L : List (List Char)) (acc : List Char) :
    (L.map String.mk).foldl (· ++ ·) (String.mk acc) = String.mk (acc ++ L.flatten) := by
  induction L generalizing acc with
  | nil => simp
  | cons x xs ih =>
    have hstep : String.mk acc ++ String.mk x = String.mk (acc ++ x) := rfl
    simp only [List.map_cons, List.foldl_cons, hstep, ih, List.flatten_cons,
      List.append_assoc]

theorem join_map_mk (L : List (List Char)) :
    String.join (L.map String.mk) = String.mk L.flatten := by
  have h := foldl_append_mk L []
  simpa [String.join] using h

theorem payloadTextBody_textPayload (rt rid : String) (pv : Bool) (b : String) :
    payloadTextBody (textPayload rt rid pv b) = some b := by
  simp [payloadTextBody, textPayload, JValue.getKey, List.lookup]

/-- The configuration used by concrete witnesses. -/
def cfg0 : WhatsAppCfg := ⟨"TOKEN", "12345"⟩

/-- A 4097-character message, used to exercise the chunking path. -/
def bigMsg : String := String.mk (List.replicate 4097 'a')

theorem bigMsg_length : bigMsg.length = 4097 := by
  have h : bigMsg.length = (List.replicate 4097 'a').length := rfl
  rw [h, List.length_replicate]

/-- C6: for a text body of at most 4096 characters, `send_message` issues
exactly one POST, and that request's payload `text.body` equals the input
message. -/
theorem send_message_short (c : WhatsAppCfg) (m rid rt : String) (pv : Bool)
    (h : m.length ≤ 4096) :
    send_message c m rid rt pv =
      [⟨c.url, c.headers, textPayload rt rid pv m⟩] ∧
    payloadTextBody (textPayload rt rid pv m) = some m := by
  refine ⟨?_, payloadTextBody_textPayload rt rid pv m⟩
  simp [send_message, Nat.not_lt.mpr h]

/-- Witness for C6 at the 5-character message `"hello"`. -/
theorem send_message_short_witness :
    send_message cfg0 "hello" "121" "individual" true =
      [⟨cfg0.url, cfg0.headers, textPayload "individual" "121" true "hello"⟩] ∧
    payloadTextBody (textPayload "individual" "121" true "hello") = some "hello" :=
  send_message_short cfg0 "hello" "121" "individual" true (by decide)

/-- C1: for a text body longer than 4096 characters, `send_message` issues
exactly ⌈length/4096⌉ POSTs, each payload's `text.body` has at most 4096
characters, and concatenating the `text.body` fields of all chunk payloads
in order reproduces the original message. -/
theorem send_message_long (c : WhatsAppCfg) (m rid rt : String) (pv : Bool)
    (h : 4096 < m.length) :
    (send_message c m rid rt pv).length = (m.length + 4095) / 4096 ∧
    (∀ r ∈ send_message c m rid rt pv,
      ∃ b, payloadTextBody r.body = some b ∧ b.length ≤ 4096) ∧
    String.join ((send_message c m rid rt pv).filterMap
      fun r => payloadTextBody r.body) = m := by
  obtain ⟨md⟩ := m
  have hif : send_message c ⟨md⟩ rid rt pv =
      (chunks4096 md).map fun msg =>
        ⟨c.url, c.headers, textPayload rt rid pv (String.mk msg)⟩ := by
    unfold send_message
    split
    · rfl
    · next h2 => exact absurd h h2
  refine ⟨?_, ?_, ?_⟩
  · rw [hif, List.length_map, chunks4096_length]
    rfl
  · intro r hr
    rw [hif] at hr
    obtain ⟨ck, hck, rfl⟩ := List.mem_map.mp hr
    exact ⟨String.mk ck, payloadTextBody_textPayload rt rid pv (String.mk ck),
      chunks4096_bound md ck hck⟩
  · rw [hif]
    have hfm : ((chunks4096 md).map fun msg =>
        (⟨c.url, c.headers, textPayload rt rid pv (String.mk msg)⟩ : Request)).filterMap
          (fun r => payloadTextBody r.body) =
        (chunks4096 md).map String.mk := by
      rw [List.filterMap_map]
      have hcomp : ((fun r => payloadTextBody r.body) ∘ fun msg =>
          (⟨c.url, c.headers, textPayload rt rid pv (String.mk msg)⟩ : Request)) =
          fun msg => some (String.mk msg) :=
        funext fun msg => payloadTextBody_textPayload rt rid pv (String.mk msg)
      rw [hcomp]
      exact congrFun (List.filterMap_eq_map String.mk) (chunks4096 md)
    rw [hfm, join_map_mk, chunks4096_flatten]

/-- Witness for C1 at a concrete 4097-character message. -/
theorem send_message_long_witness :
    4096 < bigMsg.length ∧
    ((send_message cfg0 bigMsg "121" "individual" true).length =
        (bigMsg.length + 4095) / 4096 ∧
      (∀ r ∈ send_message cfg0 bigMsg "121" "individual" true,
        ∃ b, payloadTextBody r.body = some b ∧ b.length ≤ 4096) ∧
      String.join ((send_message cfg0 bigMsg "121" "individual" true).filterMap
        fun r => payloadTextBody r.body) = bigMsg) :=
  ⟨by rw [bigMsg_length]; decide,
    send_message_long cfg0 bigMsg "121" "individual" true
      (by rw [bigMsg_length]; decide)⟩

/-- C2 counterexample: the `mark_as_read` payload carries no recipient
(`to`) key and no `type` key, so the invariant claimed for every outbound
send operation fails on the read-receipt payload. -/
theorem mark_as_read_breaks_send_invariant :
    ¬ sendInvariant (mark_as_read_json "wamid.XYZ") := by
  intro h
  have h2 := h.2.1
  simp [mark_as_read_json, JValue.get, List.lookup] at h2

/-- C2 amended: every outbound send payload except the read receipt carries
`messaging_product: "whatsapp"`, a `to` recipient and a `type` discriminator
matching the variant; the read-receipt payload carries
`messaging_product: "whatsapp"` but neither a `to` nor a `type` key. -/
theorem send_payloads_invariant (rt rid pv_s : String) (pv link : Bool)
    (mid emoji tpl lang cap fn du h b f bt u m : String) (comps : JValue)
    (vars hv bv : List String) (button : JValue)
    (buttons : List (String × String)) (message : Option String) :
    (sendInvariant (textPayload rt rid pv pv_s) ∧
      (textPayload rt rid pv pv_s).get "type" = some (.str "text")) ∧
    (sendInvariant (reactionPayload mid emoji rid) ∧
      (reactionPayload mid emoji rid).get "type" = some (.str "reaction")) ∧
    (sendInvariant (templatePayload tpl rid comps lang) ∧
      (templatePayload tpl rid comps lang).get "type" = some (.str "template")) ∧
    (sendInvariant (send_payload_template_payload tpl rid vars lang) ∧
      (send_payload_template_payload tpl rid vars lang).get "type" = some (.str "template")) ∧
    (sendInvariant (send_payload_template_with_header_payload tpl rid hv bv lang) ∧
      (send_payload_template_with_header_payload tpl rid hv bv lang).get "type" = some (.str "template")) ∧
    (sendInvariant (imagePayload u rid rt (some cap) link) ∧
      (imagePayload u rid rt (some cap) link).get "type" = some (.str "image")) ∧
    (sendInvariant (documentPayload du rid cap fn) ∧
      (documentPayload du rid cap fn).get "type" = some (.str "document")) ∧
    (sendInvariant (send_button_payload button rid) ∧
      (send_button_payload button rid).get "type" = some (.str "interactive")) ∧
    (sendInvariant (send_list_message_payload rid h b f buttons) ∧
      (send_list_message_payload rid h b f buttons).get "type" = some (.str "interactive")) ∧
    (sendInvariant (send_cta_url_button_payload rid bt u message) ∧
      (send_cta_url_button_payload rid bt u message).get "type" = some (.str "interactive")) ∧
    (sendInvariant (locationRequestPayload rid m) ∧
      (locationRequestPayload rid m).get "type" = some (.str "interactive")) ∧
    ((mark_as_read_json mid).get "messaging_product" = some (.str "whatsapp") ∧
      (mark_as_read_json mid).get "to" = none ∧
      (mark_as_read_json mid).get "type" = none) := by
  refine ⟨⟨⟨rfl, rfl, rfl⟩, rfl⟩, ⟨⟨rfl, rfl, rfl⟩, rfl⟩, ⟨⟨rfl, rfl, rfl⟩, rfl⟩,
    ⟨⟨rfl, rfl, rfl⟩, rfl⟩, ⟨⟨rfl, rfl, rfl⟩, rfl⟩, ?_, ⟨⟨rfl, rfl, rfl⟩, rfl⟩,
    ⟨⟨rfl, rfl, rfl⟩, rfl⟩, ⟨⟨rfl, rfl, rfl⟩, rfl⟩, ⟨⟨rfl, rfl, rfl⟩, rfl⟩,
    ⟨⟨rfl, rfl, rfl⟩, rfl⟩, ⟨rfl, rfl, rfl⟩⟩
  cases link
  · exact ⟨⟨rfl, rfl, rfl⟩, rfl⟩
  · exact ⟨⟨rfl, rfl, rfl⟩, rfl⟩

/-- A 1024-character message. -/
def msg1024 : String := String.mk (List.replicate 1024 'x')

/-- A 1025-character message. -/
def msg1025 : String := String.mk (List.replicate 1025 'x')

theorem msg1024_length : msg1024.length = 1024 := by
  have h : msg1024.length = (List.replicate 1024 'x').length := rfl
  rw [h, List.length_replicate]

theorem msg1025_length : msg1025.length = 1025 := by
  have h : msg1025.length = (List.replicate 1025 'x').length := rfl
  rw [h, List.length_replicate]

/-- C4: `request_location` with a message longer than 1024 characters
raises `ValueError` and issues zero POSTs; with a message of at most 1024
characters (in particular exactly 1024) the payload is built and one POST
is issued. -/
theorem request_location_validation (c : WhatsAppCfg) (rid m : String) :
    (1024 < m.length →
      request_location c rid m =
        .error "ValueError: Message length should not exceed 1024 characters") ∧
    (m.length ≤ 1024 →
      request_location c rid m =
        .ok [⟨c.url, c.headers, locationRequestPayload rid m⟩]) := by
  constructor
  · intro hlong
    unfold request_location
    split
    · rfl
    · next hlt => exact absurd hlong (by omega)
  · intro hshort
    unfold request_location
    split
    · next hge => exact absurd hshort (by omega)
    · rfl

/-- Witness for C4 at concrete 1025- and 1024-character messages. -/
theorem request_location_validation_witness :
    request_location cfg0 "121" msg1025 =
      .error "ValueError: Message length should not exceed 1024 characters" ∧
    request_location cfg0 "121" msg1024 =
      .ok [⟨cfg0.url, cfg0.headers, locationRequestPayload "121" msg1024⟩] :=
  ⟨(request_location_validation cfg0 "121" msg1025).1
      (by rw [msg1025_length]; decide),
    (request_location_validation cfg0 "121" msg1024).2
      (by rw [msg1024_length])⟩

/-- C5 counterexample: when the caller omits `lang`,
`send_payload_template_with_header` serializes `template.language.code`
as `"en_GB"`, not `"en_US"`. -/
theorem header_template_default_lang_not_en_US :
    templateLangCode (send_payload_template_with_header_payload "tpl" "121" [] []
        send_payload_template_with_header_default_lang) ≠
      some (.str "en_US") := by
  intro h
  simp [templateLangCode, send_payload_template_with_header_payload,
    send_payload_template_with_header_default_lang, JValue.get, List.lookup] at h

/-- C5 amended: the verbatim-components path (`send_template`) defaults the
language code to `"en_US"`, but the body-only convenience path
(`send_payload_template`) defaults it to `"en"` and the header+body
convenience path (`send_payload_template_with_header`) defaults it to
`"en_GB"`. -/
theorem template_default_langs (tpl rid : String) (comps : JValue)
    (vars hv bv : List String) :
    templateLangCode (templatePayload tpl rid comps send_template_default_lang) =
      some (.str "en_US") ∧
    templateLangCode (send_payload_template_payload tpl rid vars
        send_payload_template_default_lang) = some (.str "en") ∧
    templateLangCode (send_payload_template_with_header_payload tpl rid hv bv
        send_payload_template_with_header_default_lang) = some (.str "en_GB") :=
  ⟨rfl, rfl, rfl⟩

/-- C8: the header+body convenience builder produces a components list with
exactly two entries, a header entry then a body entry, whose parameters
lists have length N and M respectively, every element being
`{type: "text", text: str(variable)}` for the corresponding variable. -/
theorem header_template_components_shape (tpl rid lang : String)
    (hv bv : List String) :
    templateComponents (send_payload_template_with_header_payload tpl rid hv bv lang) =
      some (.arr [.obj [("type", .str "header"),
                        ("parameters", .arr (hv.map mkTextParam))],
                  .obj [("type", .str "body"),
                        ("parameters", .arr (bv.map mkTextParam))]]) ∧
    (hv.map mkTextParam).length = hv.length ∧
    (bv.map mkTextParam).length = bv.length ∧
    (∀ i : Nat, (hv.map mkTextParam)[i]? =
      (hv[i]?).map fun v => .obj [("type", .str "text"), ("text", .str v)]) ∧
    (∀ i : Nat, (bv.map mkTextParam)[i]? =
      (bv[i]?).map fun v => .obj [("type", .str "text"), ("text", .str v)]) := by
  refine ⟨rfl, List.length_map hv mkTextParam, List.length_map bv mkTextParam, ?_, ?_⟩
  · intro i
    rw [List.getElem?_map]
    rfl
  · intro i
    rw [List.getElem?_map]
    rfl

/-- C9: `mark_as_read` posts to the same endpoint
`{base_url}/{phone_number_id}/messages` as every other send, and its
locally built header dictionary is, as a mapping, equal to the shared
`self.headers` (same value at every key). -/
theorem mark_as_read_same_endpoint_and_headers (c : WhatsAppCfg) (k : String) :
    mark_as_read_url c = c.url ∧
    (mark_as_read_headers c).lookup k = (WhatsAppCfg.headers c).lookup k := by
  refine ⟨rfl, ?_⟩
  by_cases h1 : k = "Authorization"
  · subst h1; rfl
  · by_cases h2 : k = "Content-Type"
    · subst h2; rfl
    · have hb1 : (k == "Authorization") = false := beq_eq_false_iff_ne.mpr h1
      have hb2 : (k == "Content-Type") = false := beq_eq_false_iff_ne.mpr h2
      simp only [mark_as_read_headers, WhatsAppCfg.headers, List.lookup, hb1, hb2]

/-- C10: the CTA-URL payload's `interactive` object carries a `body` key
iff `message` is a truthy string, in which case it equals
`{"text": message}`; passing the empty string builds the same payload as
passing `None`. -/
theorem cta_url_body_iff (rid bt u : String) (message : Option String) :
    (∀ m, message = some m → m ≠ "" →
      interactiveBody (send_cta_url_button_payload rid bt u message) =
        some (.obj [("text", .str m)])) ∧
    (message = none ∨ message = some "" →
      interactiveBody (send_cta_url_button_payload rid bt u message) = none) ∧
    send_cta_url_button_payload rid bt u (some "") =
      send_cta_url_button_payload rid bt u none := by
  refine ⟨?_, ?_, rfl⟩
  · rintro m rfl hne
    simp [interactiveBody, send_cta_url_button_payload, ctaBody, hne,
      JValue.get, List.lookup]
  · rintro (rfl | rfl) <;> rfl

/-- Witness for C10 at a truthy message and at `None`. -/
theorem cta_url_body_iff_witness :
    interactiveBody (send_cta_url_button_payload "121" "Visit" "https://x.com"
        (some "hello")) = some (.obj [("text", .str "hello")]) ∧
    interactiveBody (send_cta_url_button_payload "121" "Visit" "https://x.com"
        none) = none :=
  ⟨(cta_url_body_iff "121" "Visit" "https://x.com" (some "hello")).1 "hello" rfl
      (by decide),
    (cta_url_body_iff "121" "Visit" "https://x.com" none).2.1 (Or.inl rfl)⟩

/-- Python `v == "s"` for a value and a string literal: `False` whenever
`v` is not a string. -/
def JValue.eqStr (v : JValue) (s : String) : Bool :=
  match v with
  | .str t => t == s
  | _ => false

/-- Model of `WhatsApp.preprocess`: `data["entry"][0]["changes"][0]["value"]`. -/
def preprocess (data : JValue) : Except String JValue := do
  let e ← data.getKey "entry"
  let e0 ← e.getIdx 0
  let ch ← e0.getKey "changes"
  let ch0 ← ch.getIdx 0
  ch0.getKey "value"

/-- Model of `WhatsApp.get_mobile`: guards on `"contacts" in data`, then reads
`data["contacts"][0]["wa_id"]`; implicitly returns `None` otherwise. -/
def get_mobile (data : JValue) : Except String (Option JValue) := do
  let d ← preprocess data
  if d.hasKey "contacts" then
    let cs ← d.getKey "contacts"
    let c0 ← cs.getIdx 0
    let w ← c0.getKey "wa_id"
    return some w
  else
    return none

/-- Model of `WhatsApp.get_name`: checks only that the change value is truthy, then
reads `contact["contacts"][0]["profile"]["name"]`. -/
def get_name (data : JValue) : Except String (Option JValue) := do
  let contact ← preprocess data
  if contact.truthy then
    let cs ← contact.getKey "contacts"
    let c0 ← cs.getIdx 0
    let p ← c0.getKey "profile"
    let n ← p.getKey "name"
    return some n
  else
    return none

/-- Model of `WhatsApp.get_message`: text body for type `"text"`, button-reply title
for type `"interactive"` with a `button_reply`, `None` otherwise. -/
def get_message (data : JValue) : Except String (Option JValue) := do
  let d ← preprocess data
  if d.hasKey "messages" then
    let ms ← d.getKey "messages"
    let m0 ← ms.getIdx 0
    let ty ← m0.getKey "type"
    if ty.eqStr "text" then
      let t ← m0.getKey "text"
      let b ← t.getKey "body"
      return some b
    else if ty.eqStr "interactive" then
      let i ← m0.getKey "interactive"
      if i.hasKey "button_reply" then
        let br ← i.getKey "button_reply"
        let t ← br.getKey "title"
        return some t
      else
        return none
    else
      return none
  else
    return none

/-- Model of `WhatsApp.get_message_id`: guards on `"messages" in data`, then reads
`data["messages"][0]["id"]`. -/
def get_message_id (data : JValue) : Except String (Option JValue) := do
  let d ← preprocess data
  if d.hasKey "messages" then
    let ms ← d.getKey "messages"
    let m0 ← ms.getIdx 0
    let i ← m0.getKey "id"
    return some i
  else
    return none

/-- Model of `WhatsApp.get_interactive_response`: guards on
`"messages" in data` and then on `"interactive" in data["messages"][0]`,
returning the raw interactive block; implicitly `None` otherwise. -/
def get_interactive_response (data : JValue) : Except String (Option JValue) := do
  let d ← preprocess data
  if d.hasKey "messages" then
    let ms ← d.getKey "messages"
    let m0 ← ms.getIdx 0
    if m0.hasKey "interactive" then
      let i ← m0.getKey "interactive"
      return some i
    else
      return none
  else
    return none

/-- Model of `WhatsApp.get_image`: guards on `"messages" in data` and then
on `"image" in data["messages"][0]`, returning the raw image block;
implicitly `None` otherwise. -/
def get_image (data : JValue) : Except String (Option JValue) := do
  let d ← preprocess data
  if d.hasKey "messages" then
    let ms ← d.getKey "messages"
    let m0 ← ms.getIdx 0
    if m0.hasKey "image" then
      let i ← m0.getKey "image"
      return some i
    else
      return none
  else
    return none

/-- A webhook body whose `entry[0].changes[0].value` is `v`. -/
def wrapChange (v : JValue) : JValue :=
  .obj [("entry", .arr [.obj [("changes", .arr [.obj [("value", v)]])]])]

theorem ok_bind {α β : Type} (a : α) (f : α → Except String β) :
    (Except.ok a >>= f : Except String β) = f a := rfl

theorem pure_eq_ok {α : Type} (a : α) :
    (pure a : Except String α) = Except.ok a := rfl

theorem error_bind {α β : Type} (e : String) (f : α → Except String β) :
    (Except.error e >>= f : Except String β) = Except.error e := rfl

theorem preprocess_wrapChange (v : JValue) :
    preprocess (wrapChange v) = .ok v := rfl

/-- A webhook body whose change value contains `messages` but no
`contacts` key. -/
def noContactsData : JValue := wrapChange (.obj [("messages", .arr [])])

/-- C3 counterexample: on a webhook body whose change value is present and
non-empty but lacks `contacts`, `get_name` raises a `KeyError` instead of
returning `None`. -/
theorem get_name_raises_on_missing_contacts :
    get_name noContactsData = .error "KeyError: contacts" ∧
    get_name noContactsData ≠ .ok none := by
  constructor
  · rfl
  · intro h
    have h1 : get_name noContactsData = Except.error "KeyError: contacts" := rfl
    rw [h1] at h
    exact Except.noConfusion h

/-- C3 amended: the accessors return `None` rather than raising whenever a
key guarded by a membership test is missing — `get_mobile` when `contacts`
is absent from the change value (whether or not `messages` is present), the
messages-based accessors when `messages` is absent, `get_interactive_response`
and `get_image` when `messages[0]` lacks `interactive`/`image` below a
present `messages` guard, and `get_message` when `button_reply` is absent
from an interactive message's `interactive` block — but `get_name` is not
total: it checks only that the change value is truthy and raises `KeyError`
when `contacts` is absent from a non-empty change value. -/
theorem extractors_guarded_none (v m0 ib : List (String × JValue))
    (more : List JValue) :
    (v.lookup "contacts" = none →
      get_mobile (wrapChange (.obj v)) = .ok none) ∧
    (v.lookup "messages" = none →
      get_message_id (wrapChange (.obj v)) = .ok none) ∧
    (v.lookup "messages" = none →
      get_message (wrapChange (.obj v)) = .ok none) ∧
    (v.lookup "messages" = none →
      get_interactive_response (wrapChange (.obj v)) = .ok none) ∧
    (v.lookup "messages" = none →
      get_image (wrapChange (.obj v)) = .ok none) ∧
    (m0.lookup "interactive" = none →
      get_interactive_response (wrapChange
        (.obj (("messages", .arr (.obj m0 :: more)) :: v))) = .ok none) ∧
    (m0.lookup "image" = none →
      get_image (wrapChange
        (.obj (("messages", .arr (.obj m0 :: more)) :: v))) = .ok none) ∧
    (m0.lookup "type" = some (.str "interactive") →
      m0.lookup "interactive" = some (.obj ib) →
      ib.lookup "button_reply" = none →
      get_message (wrapChange
        (.obj (("messages", .arr (.obj m0 :: more)) :: v))) = .ok none) ∧
    (v ≠ [] → v.lookup "contacts" = none →
      get_name (wrapChange (.obj v)) = .error "KeyError: contacts") := by
  refine ⟨?_, ?_, ?_, ?_, ?_, ?_, ?_, ?_, ?_⟩
  · intro hnc
    simp [get_mobile, preprocess_wrapChange, ok_bind, JValue.hasKey, hnc,
      pure_eq_ok]
  · intro hnm
    simp [get_message_id, preprocess_wrapChange, ok_bind, JValue.hasKey, hnm,
      pure_eq_ok]
  · intro hnm
    simp [get_message, preprocess_wrapChange, ok_bind, JValue.hasKey, hnm,
      pure_eq_ok]
  · intro hnm
    simp [get_interactive_response, preprocess_wrapChange, ok_bind,
      JValue.hasKey, hnm, pure_eq_ok]
  · intro hnm
    simp [get_image, preprocess_wrapChange, ok_bind, JValue.hasKey, hnm,
      pure_eq_ok]
  · intro hni
    simp [get_interactive_response, preprocess_wrapChange, ok_bind,
      JValue.hasKey, JValue.getKey, JValue.getIdx, List.lookup, List.get?,
      hni, pure_eq_ok]
  · intro hni
    simp [get_image, preprocess_wrapChange, ok_bind, JValue.hasKey,
      JValue.getKey, JValue.getIdx, List.lookup, List.get?, hni, pure_eq_ok]
  · intro hty hi hbr
    simp [get_message, preprocess_wrapChange, ok_bind, JValue.hasKey,
      JValue.getKey, JValue.getIdx, List.lookup, List.get?, JValue.eqStr,
      hty, hi, hbr, pure_eq_ok]
  · intro hne hnc
    have hemp : v.isEmpty = false := by
      cases v
      · exact absurd rfl hne
      · rfl
    simp [get_name, preprocess_wrapChange, ok_bind, JValue.truthy, hemp,
      JValue.getKey, hnc, pure_eq_ok, error_bind]

/-- Witness for the amended C3: `get_mobile` returns `None` on a change
value with `messages` present but `contacts` absent; `get_message_id`
returns `None` on a status-only change value; `get_interactive_response`
returns `None` when `messages[0]` lacks `interactive`; `get_message`
returns `None` when the interactive block lacks `button_reply`; `get_name`
raises on a non-empty change value without `contacts`. -/
theorem extractors_guarded_none_witness :
    get_mobile (wrapChange (.obj [("messages", .arr [])])) = .ok none ∧
    get_message_id (wrapChange (.obj [("statuses", .arr [])])) = .ok none ∧
    get_interactive_response (wrapChange (.obj [("messages",
      .arr [.obj [("type", .str "text")]])])) = .ok none ∧
    get_message (wrapChange (.obj [("messages", .arr [.obj
      [("type", .str "interactive"),
       ("interactive", .obj [("list_reply", .obj [])])]])])) = .ok none ∧
    get_name (wrapChange (.obj [("statuses", .arr [])])) =
      .error "KeyError: contacts" :=
  ⟨(extractors_guarded_none [("messages", .arr [])] [] [] []).1 rfl,
    (extractors_guarded_none [("statuses", .arr [])] [] [] []).2.1 rfl,
    (extractors_guarded_none [] [("type", .str "text")] [] []).2.2.2.2.2.1 rfl,
    (extractors_guarded_none []
      [("type", .str "interactive"), ("interactive", .obj [("list_reply", .obj [])])]
      [("list_reply", .obj [])] []).2.2.2.2.2.2.2.1 rfl rfl rfl,
    (extractors_guarded_none [("statuses", .arr [])] [] [] []).2.2.2.2.2.2.2.2
      (by simp) rfl⟩

/-- C7: on a webhook body with `messages[0]` present, `get_message` returns
`messages[0].text.body` when the type is `"text"`, the button reply's title
when the type is `"interactive"` and a `button_reply` is present, and
`None` for every other type. -/
theorem get_message_by_type (d v ms m0 : JValue) (ty : String)
    (hpre : preprocess d = .ok v)
    (hhas : v.hasKey "messages" = true)
    (hms : v.getKey "messages" = .ok ms)
    (h0 : ms.getIdx 0 = .ok m0)
    (hty : m0.getKey "type" = .ok (.str ty)) :
    (∀ t b, ty = "text" → m0.getKey "text" = .ok t →
      t.getKey "body" = .ok b → get_message d = .ok (some b)) ∧
    (∀ i br t, ty = "interactive" → m0.getKey "interactive" = .ok i →
      i.hasKey "button_reply" = true → i.getKey "button_reply" = .ok br →
      br.getKey "title" = .ok t → get_message d = .ok (some t)) ∧
    (ty ≠ "text" → ty ≠ "interactive" → get_message d = .ok none) := by
  refine ⟨?_, ?_, ?_⟩
  · rintro t b rfl ht hb
    simp [get_message, hpre, ok_bind, hhas, hms, h0, hty, JValue.eqStr,
      ht, hb, pure_eq_ok]
  · rintro i br t rfl hi hbr hgbr htitle
    simp [get_message, hpre, ok_bind, hhas, hms, h0, hty, JValue.eqStr,
      hi, hbr, hgbr, htitle, pure_eq_ok]
  · intro hnt hni
    simp [get_message, hpre, ok_bind, hhas, hms, h0, hty, JValue.eqStr,
      hnt, hni, pure_eq_ok]

/-- A webhook body carrying a text message. -/
def textWebhook : JValue :=
  wrapChange (.obj [("messages", .arr [.obj
    [("type", .str "text"), ("text", .obj [("body", .str "hi")])]])])

/-- A webhook body carrying an image message. -/
def imageWebhook : JValue :=
  wrapChange (.obj [("messages", .arr [.obj
    [("type", .str "image"), ("image", .obj [("id", .str "IMG1")])]])])

/-- Witness for C7 on a concrete text message and a concrete image
message. -/
theorem get_message_by_type_witness :
    get_message textWebhook = .ok (some (.str "hi")) ∧
    get_message imageWebhook = .ok none :=
  ⟨(get_message_by_type textWebhook
      (.obj [("messages", .arr [.obj
        [("type", .str "text"), ("text", .obj [("body", .str "hi")])]])])
      (.arr [.obj [("type", .str "text"), ("text", .obj [("body", .str "hi")])]])
      (.obj [("type", .str "text"), ("text", .obj [("body", .str "hi")])])
      "text" rfl rfl rfl rfl rfl).1
      (.obj [("body", .str "hi")]) (.str "hi") rfl rfl rfl,
    (get_message_by_type imageWebhook
      (.obj [("messages", .arr [.obj
        [("type", .str "image"), ("image", .obj [("id", .str "IMG1")])]])])
      (.arr [.obj [("type", .str "image"), ("image", .obj [("id", .str "IMG1")])]])
      (.obj [("type", .str "image"), ("image", .obj [("id", .str "IMG1")])])
      "image" rfl rfl rfl rfl rfl).2.2 (by decide) (by decide)⟩
